import Mathlib

/-!
Shallow embedding of the Draftly client core (session store, transport
interception, and the project/section workflow controllers) together with
theorems checking the specification's claims against it.

The session model follows src/frontend/src/context/AuthContext.tsx and
src/frontend/src/lib/api.ts; the workflow model follows
src/frontend/src/pages/ProjectDetailPage.tsx and
src/frontend/src/pages/ProjectsPage.tsx.
-/

namespace Draftly

/-- AuthState as held by the AuthProvider: accessToken, refreshToken and
userEmail, each nullable. -/
structure AuthState where
  accessToken : Option String
  refreshToken : Option String
  userEmail : Option String
deriving Repr, DecidableEq

/-- The all-null AuthState used by logout and by the 401 interceptor. -/
def clearedAuth : AuthState :=
  { accessToken := none, refreshToken := none, userEmail := none }

/-- One value stored under the fixed localStorage key: either a state that
JSON.parse recovers, or text that fails to parse. -/
inductive StoredValue where
  | good (a : AuthState)
  | corrupt
deriving Repr, DecidableEq

/-- setAuthHeader from lib/api.ts: a truthy token installs a single Bearer
header by assignment, a null (or empty, hence falsy) token deletes the
header. The returned value is the header slot after the call. -/
def setAuthHeader (token : Option String) : Option String :=
  match token with
  | some t => if t = "" then none else some ("Bearer " ++ t)
  | none => none

/-- The session-relevant client state: the AuthProvider state, the single
default authorization header on the axios instance, and the localStorage
record under the fixed key. -/
structure ClientState where
  auth : AuthState
  header : Option String
  storage : Option StoredValue
deriving Repr, DecidableEq

/-- persist from AuthContext.tsx: setAuthState, setAuthHeader, and
localStorage.setItem of the serialized state, replacing all three slots.
The previous state is not consulted. -/
def persist (a : AuthState) (_prev : ClientState) : ClientState :=
  { auth := a, header := setAuthHeader a.accessToken,
    storage := some (StoredValue.good a) }

/-- logout from AuthContext.tsx: persist of the all-null state. -/
def logout (s : ClientState) : ClientState :=
  persist clearedAuth s

/-- Body of a successful response from POST /auth/login. -/
structure LoginResponse where
  access_token : String
  refresh_token : String
deriving Repr, DecidableEq

/-- The state update performed by login on a successful response: persist of
the returned tokens together with the submitted email. -/
def loginSuccess (email : String) (resp : LoginResponse) (s : ClientState) :
    ClientState :=
  persist
    { accessToken := some resp.access_token,
      refreshToken := some resp.refresh_token,
      userEmail := some email } s

/-- The useState initializer of AuthProvider run at process start against the
stored record: a record that parses is adopted and its access token applied
to the header; a corrupt record is removed and the state starts cleared; no
record starts cleared. A fresh axios instance carries no auth header. -/
def initFromStorage (stored : Option StoredValue) : ClientState :=
  match stored with
  | some (StoredValue.good a) =>
      { auth := a, header := setAuthHeader a.accessToken,
        storage := some (StoredValue.good a) }
  | some StoredValue.corrupt =>
      { auth := clearedAuth, header := none, storage := none }
  | none =>
      { auth := clearedAuth, header := none, storage := none }

/-- The useEffect keyed on authState.accessToken: re-applies setAuthHeader
with the current access token. -/
def applyAuthEffect (s : ClientState) : ClientState :=
  { s with header := setAuthHeader s.auth.accessToken }

/-- An axios rejection: the optional response status (absent on a network
failure) and the optional response detail field. -/
structure ApiError where
  responseStatus : Option Nat
  detail : Option String
deriving Repr, DecidableEq

/-- Default axios settling: a 2xx status fulfills with the response, any
other status rejects with an error carrying that status. -/
def axiosSettle (status : Nat) (detail : Option String) :
    Except ApiError Nat :=
  if 200 ≤ status ∧ status < 300 then Except.ok status
  else Except.error { responseStatus := some status, detail := detail }

/-- The response interceptor registered by AuthProvider: fulfilled responses
pass through; a rejection whose response status is 401 clears the auth state
and removes the localStorage record, and the error is re-raised to the
caller in every case. -/
def responseInterceptor (r : Except ApiError Nat) (s : ClientState) :
    ClientState × Except ApiError Nat :=
  match r with
  | Except.ok v => (s, Except.ok v)
  | Except.error e =>
      (if e.responseStatus = some 401 then
        { s with auth := clearedAuth, storage := none }
      else s,
      Except.error e)

/-- A response with the given HTTP status arriving on the shared axios
instance: default settling followed by the registered interceptor. -/
def receiveResponse (status : Nat) (detail : Option String)
    (s : ClientState) : ClientState × Except ApiError Nat :=
  responseInterceptor (axiosSettle status detail) s

/-- The pairing invariant on a Credential: accessToken and userEmail are
both present or both absent. -/
def pairedAuth (a : AuthState) : Bool :=
  a.accessToken.isSome == a.userEmail.isSome

/-- Invariant on the stored record: a record that parses holds a paired
state. -/
def storedOk : Option StoredValue → Bool
  | none => true
  | some (StoredValue.good a) => pairedAuth a
  | some StoredValue.corrupt => true

/-- Session states reachable by the client itself: a fresh start, login
success, logout, any received response, the header-sync effect, and a
process restart against the storage the previous process left behind. -/
inductive Reachable : ClientState → Prop
  | start : Reachable (initFromStorage none)
  | loginStep (email : String) (resp : LoginResponse) {s : ClientState} :
      Reachable s → Reachable (loginSuccess email resp s)
  | logoutStep {s : ClientState} :
      Reachable s → Reachable (logout s)
  | responseStep (status : Nat) (detail : Option String) {s : ClientState} :
      Reachable s → Reachable (receiveResponse status detail s).1
  | headerSync {s : ClientState} :
      Reachable s → Reachable (applyAuthEffect s)
  | restart {s : ClientState} :
      Reachable s → Reachable (initFromStorage s.storage)

lemma reachable_invariant (s : ClientState) (h : Reachable s) :
    pairedAuth s.auth = true ∧ storedOk s.storage = true := by
  induction h with
  | start => exact ⟨rfl, rfl⟩
  | loginStep email resp _ _ => exact ⟨rfl, rfl⟩
  | logoutStep _ _ => exact ⟨rfl, rfl⟩
  | @responseStep status detail s' _ ih =>
      unfold receiveResponse
      cases hax : axiosSettle status detail with
      | ok v => exact ih
      | error e =>
          by_cases h401 : e.responseStatus = some 401
          · simp only [responseInterceptor, if_pos h401]
            exact ⟨rfl, rfl⟩
          · simp only [responseInterceptor, if_neg h401]
            exact ih
  | headerSync _ ih => exact ih
  | @restart s' _ ih =>
      rcases hv : s'.storage with _ | (a | _)
      · exact ⟨rfl, rfl⟩
      · have h2 := ih.2
        rw [hv] at h2
        exact ⟨h2, h2⟩
      · exact ⟨rfl, rfl⟩

/-- Section record as returned by the backend (types/index.ts). -/
structure Section where
  id : String
  project_id : String
  title : String
  content : String
  idx : Int
  initial_generated : Bool
  revision_count : Nat
  comment_count : Nat
  created_at : String
  updated_at : Option String
deriving Repr, DecidableEq

/-- The selection-reconciliation useEffect of ProjectDetailPage, keyed on the
section list: an empty list clears the selection; otherwise a missing prior
selection takes the first element, a prior selection is looked up by id in
the fresh list and kept as the fresh copy, falling back to the first element
when the id is gone. -/
def reconcileSelection (sections : List Section) (prev : Option Section) :
    Option Section :=
  if sections.isEmpty then none
  else
    match prev with
    | none => sections.head?
    | some p =>
        match sections.find? (fun s => s.id == p.id) with
        | some u => some u
        | none => sections.head?

/-- The ProjectDetailPage state slots the workflow claims touch. -/
structure DetailPageState where
  sections : List Section
  selectedSection : Option Section
  refinePrompt : String
  generatePrompt : String
  llmBusy : Bool
  exporting : Bool
  savingSection : Bool
  error : Option String
deriving Repr, DecidableEq

/-- The request body and target of POST
/projects/(projectId)/sections/(sectionId)/refine/ as handleRefine builds
it. -/
structure RefineRequest where
  projectId : String
  sectionId : String
  refine_instruction : String
  prompt : String
  preserve_formatting : Bool
  temperature : Rat
  max_tokens : Nat
deriving Repr, DecidableEq

/-- The refine request handleRefine sends for the selected section: the
refinement instruction input, the selected buffer content as prompt,
preserve_formatting true, temperature 0.6, max_tokens 800. -/
def refineRequestOf (projectId : String) (st : DetailPageState)
    (sel : Section) : RefineRequest :=
  { projectId := projectId, sectionId := sel.id,
    refine_instruction := st.refinePrompt, prompt := sel.content,
    preserve_formatting := true, temperature := (6 : Rat) / 10,
    max_tokens := 800 }

/-- handleRefine of ProjectDetailPage, with the settled server response as
input: a missing projectId or selection sends nothing; otherwise the request
above is sent, a success replaces the selected buffer with the returned
section and clears the refine input, a failure surfaces the error detail or
the fixed fallback, and llmBusy ends false either way. The background list
refresh it also awaits is modelled by reconcileSelection separately. -/
def handleRefine (projectId : Option String) (st : DetailPageState)
    (result : Except ApiError Section) :
    DetailPageState × Option RefineRequest :=
  match projectId, st.selectedSection with
  | some pid, some sel =>
      let req := refineRequestOf pid st sel
      match result with
      | Except.ok data =>
          ({ st with llmBusy := false, error := none,
                     selectedSection := some data, refinePrompt := "" },
           some req)
      | Except.error e =>
          ({ st with llmBusy := false,
                     error := some (e.detail.getD "Unable to refine content") },
           some req)
  | _, _ => (st, none)

/-- A settled response of the window.fetch export request: the ok flag and
the bytes a blob conversion would read. -/
structure ExportOk where
  ok : Bool
  body : List Nat
deriving Repr, DecidableEq

/-- The client-side save-as action handleExport triggers on success. -/
structure SaveAction where
  filename : String
  blob : List Nat
deriving Repr, DecidableEq

/-- handleExport of ProjectDetailPage with the settled fetch outcome as
input: a missing projectId does nothing; a response with ok false raises
the fixed Export failed error before any blob is produced; a network
failure surfaces its message; a success saves the blob under the project
title (or document) with the chosen format as extension. The exporting flag
ends false on every path. -/
def handleExport (projectId : Option String) (projectTitle : Option String)
    (exportFormat : String) (st : DetailPageState)
    (resp : Except String ExportOk) :
    DetailPageState × Option SaveAction :=
  match projectId with
  | none => (st, none)
  | some _ =>
      match resp with
      | Except.error m =>
          ({ st with exporting := false, error := some m }, none)
      | Except.ok r =>
          if r.ok then
            ({ st with exporting := false, error := none },
             some { filename := (projectTitle.getD "document") ++ "." ++ exportFormat,
                    blob := r.body })
          else
            ({ st with exporting := false, error := some "Export failed" },
             none)

/-- A window.fetch settling for the export request: an HTTP error status
still fulfills, with ok true exactly for a 2xx status (fetch rejects only
on a network failure). -/
def fetchResponse (status : Nat) (body : List Nat) : Except String ExportOk :=
  Except.ok { ok := decide (200 ≤ status) && decide (status < 300),
              body := body }

/-- A response with the given HTTP status arriving on the export channel:
handleExport consumes the window.fetch outcome directly. The request never
passes through the shared axios instance, so the registered response
interceptor does not run and nothing in handleExport touches the auth
state, the header or the storage: the session state is returned unchanged,
and any failure is captured into the local error slot rather than
re-raised. -/
def receiveExportResponse (status : Nat) (body : List Nat)
    (projectId projectTitle : Option String) (fmt : String)
    (st : DetailPageState) (s : ClientState) :
    ClientState × DetailPageState × Option SaveAction :=
  (s, handleExport projectId projectTitle fmt st (fetchResponse status body))

/-- The PUT body handleSectionUpdate sends: title and content only. -/
structure UpdateSectionBody where
  title : String
  content : String
deriving Repr, DecidableEq

/-- The full update request: the path carries the project id and the section
id, the body carries title and content. -/
structure UpdateRequest where
  projectId : String
  sectionId : String
  body : UpdateSectionBody
deriving Repr, DecidableEq

/-- The request handleSectionUpdate builds for a section: PUT
/projects/(projectId)/sections/(section.id) with body of the section title
and content. -/
def updateRequestOf (projectId : String) (s : Section) : UpdateRequest :=
  { projectId := projectId, sectionId := s.id,
    body := { title := s.title, content := s.content } }

/-- handleSectionUpdate of ProjectDetailPage: no request without a
projectId, otherwise the update request above. -/
def handleSectionUpdate (projectId : Option String) (s : Section) :
    Option UpdateRequest :=
  match projectId with
  | none => none
  | some pid => some (updateRequestOf pid s)

/-- The generator form state of ProjectsPage. -/
structure GeneratorForm where
  projectId : String
  num_sections : Int
  include_outline : Bool
  outline_format : String
deriving Repr, DecidableEq

/-- Body and target of POST /projects/(projectId)/generate as handleGenerate
sends it, with a blank outline format normalized to null. -/
structure GenerateRequest where
  projectId : String
  num_sections : Int
  include_outline : Bool
  outline_format : Option String
deriving Repr, DecidableEq

/-- The constraint the number input declares with min 1 and max 20; native
form constraint validation blocks submission outside it. -/
def numSectionsInRange (n : Int) : Bool :=
  decide (1 ≤ n) && decide (n ≤ 20)

/-- The request handleGenerate posts for a form that passes validation. -/
def generateRequestOf (g : GeneratorForm) : GenerateRequest :=
  { projectId := g.projectId, num_sections := g.num_sections,
    include_outline := g.include_outline,
    outline_format :=
      if g.outline_format = "" then none else some g.outline_format }

/-- Submission of the generate form: the number input constraint (min 1,
max 20) is checked by the browser before the submit handler runs, then
handleGenerate refuses an empty project selection, and only then is the
request posted. None means no network request was sent. -/
def submitGenerate (g : GeneratorForm) : Option GenerateRequest :=
  if ¬ numSectionsInRange g.num_sections then none
  else if g.projectId = "" then none
  else some (generateRequestOf g)

/-- Sample section used by concrete instances. -/
def secA : Section :=
  { id := "a", project_id := "p1", title := "Alpha", content := "alpha text",
    idx := 0, initial_generated := false, revision_count := 0,
    comment_count := 0, created_at := "t0", updated_at := none }

/-- Second sample section. -/
def secB : Section :=
  { id := "b", project_id := "p1", title := "Beta", content := "beta text",
    idx := 1, initial_generated := true, revision_count := 2,
    comment_count := 0, created_at := "t0", updated_at := none }

/-- Third sample section. -/
def secC : Section :=
  { id := "c", project_id := "p1", title := "Gamma", content := "gamma text",
    idx := 2, initial_generated := false, revision_count := 0,
    comment_count := 1, created_at := "t0", updated_at := none }

/-- A logged-in client state used by concrete instances. -/
def loggedInState : ClientState :=
  { auth := { accessToken := some "tok", refreshToken := some "ref",
              userEmail := some "u@example.com" },
    header := some "Bearer tok",
    storage := some (StoredValue.good
      { accessToken := some "tok", refreshToken := some "ref",
        userEmail := some "u@example.com" }) }

/-- C2: the pairing invariant (accessToken and userIdentity both present or
both absent) holds after every Session Store transition reachable by the
client, and after a successful login the pairing holds, the header-sync
effect is a no-op on the resulting state (the header already reflects the
new token, exactly once), and for a nonempty token the Transport header is
the single Bearer value of that token. -/
theorem credential_pairing_and_login_header :
    (∀ s : ClientState, Reachable s → pairedAuth s.auth = true) ∧
    (∀ (s : ClientState) (email : String) (resp : LoginResponse),
      pairedAuth (loginSuccess email resp s).auth = true ∧
      applyAuthEffect (loginSuccess email resp s) = loginSuccess email resp s ∧
      (resp.access_token ≠ "" →
        (loginSuccess email resp s).header =
          some ("Bearer " ++ resp.access_token))) := by
  constructor
  · intro s h
    exact (reachable_invariant s h).1
  · intro s email resp
    refine ⟨rfl, rfl, fun hne => ?_⟩
    simp [loginSuccess, persist, setAuthHeader, hne]

/-- C2 witness: the invariant at the start state, and the header after a
concrete successful login. -/
theorem credential_pairing_and_login_header_witness :
    pairedAuth (initFromStorage none).auth = true ∧
    (loginSuccess "u@example.com"
        { access_token := "tok", refresh_token := "ref" }
        (initFromStorage none)).header = some ("Bearer " ++ "tok") := by
  constructor
  · exact credential_pairing_and_login_header.1 _ Reachable.start
  · exact (credential_pairing_and_login_header.2 _ "u@example.com" _).2.2
      (by decide)

/-- C3: selection is retained across a section-list refresh by id: when the
previously selected id is present in the new list the selection is a fresh
copy drawn from that list with the same id; when the id is absent the
selection falls back to the first element; an empty list clears the
selection. -/
theorem selection_retained_by_id (sections : List Section) (p : Section) :
    (sections = [] → reconcileSelection sections (some p) = none) ∧
    ((∃ u ∈ sections, u.id = p.id) →
      ∃ u, u ∈ sections ∧ u.id = p.id ∧
        reconcileSelection sections (some p) = some u) ∧
    (sections ≠ [] → (∀ u ∈ sections, u.id ≠ p.id) →
      reconcileSelection sections (some p) = sections.head?) := by
  refine ⟨?_, ?_, ?_⟩
  · intro h
    subst h
    rfl
  · rintro ⟨u, hu, hid⟩
    rcases hf : sections.find? (fun s => s.id == p.id) with _ | v
    · exact absurd (by simpa using hid)
        (by simpa using List.find?_eq_none.mp hf u hu)
    · refine ⟨v, List.mem_of_find?_eq_some hf, by simpa using List.find?_some hf, ?_⟩
      cases sections with
      | nil => cases hu
      | cons a t => simp [reconcileSelection, hf]
  · intro hne hall
    have hf : sections.find? (fun s => s.id == p.id) = none := by
      rw [List.find?_eq_none]
      intro u hu
      simpa using hall u hu
    cases sections with
    | nil => exact absurd rfl hne
    | cons a t => simp [reconcileSelection, hf]

/-- C3 witness: with the list refreshed to Alpha and Beta while Gamma was
selected, the selection falls back to the first element; with Beta selected
it is retained as the fresh copy with the same id. -/
theorem selection_retained_by_id_witness :
    reconcileSelection [secA, secB] (some secC) = [secA, secB].head? ∧
    (∃ u, u ∈ [secA, secB] ∧ u.id = secB.id ∧
      reconcileSelection [secA, secB] (some secB) = some u) := by
  constructor
  · exact (selection_retained_by_id [secA, secB] secC).2.2 (by decide)
      (by decide)
  · exact (selection_retained_by_id [secA, secB] secB).2.1
      ⟨secB, by decide, rfl⟩

/-- C10: after reconciliation the Local Edit Buffer is cleared exactly when
the section list is empty: every nonempty list leaves some section selected
and an empty list leaves none. -/
theorem selection_cleared_iff_list_empty (sections : List Section)
    (prev : Option Section) :
    reconcileSelection sections prev = none ↔ sections = [] := by
  cases sections with
  | nil => simp [reconcileSelection]
  | cons a t =>
      constructor
      · intro h
        exfalso
        cases prev with
        | none => simp [reconcileSelection] at h
        | some p =>
            rcases hf : (a :: t).find? (fun s => s.id == p.id) with _ | u <;>
              simp [reconcileSelection, hf] at h
      · intro h
        exact absurd h (List.cons_ne_nil a t)

/-- C4: submitting the generate form with numSections equal to 0 or 21 is
blocked by client-side validation before any request is sent; the declared
input constraint accepts exactly the bounds 1 to 20 inclusive, and a form
inside the bounds with a selected project does send the request. -/
theorem generate_bounds_validation :
    (∀ g : GeneratorForm, g.num_sections = 0 ∨ g.num_sections = 21 →
      submitGenerate g = none) ∧
    (∀ n : Int, numSectionsInRange n = true ↔ 1 ≤ n ∧ n ≤ 20) ∧
    (∀ g : GeneratorForm, g.projectId ≠ "" →
      numSectionsInRange g.num_sections = true →
      submitGenerate g = some (generateRequestOf g)) := by
  refine ⟨?_, ?_, ?_⟩
  · intro g h
    rcases h with h | h <;> simp [submitGenerate, numSectionsInRange, h]
  · intro n
    simp [numSectionsInRange]
  · intro g hp hn
    simp [submitGenerate, hn, hp]

/-- Generate form with zero sections requested. -/
def genFormZero : GeneratorForm :=
  { projectId := "p1", num_sections := 0, include_outline := true,
    outline_format := "" }

/-- Generate form with 21 sections requested. -/
def genForm21 : GeneratorForm :=
  { projectId := "p1", num_sections := 21, include_outline := true,
    outline_format := "" }

/-- Generate form inside the accepted bounds. -/
def genFormOk : GeneratorForm :=
  { projectId := "p1", num_sections := 5, include_outline := true,
    outline_format := "" }

/-- C4 witness: the two boundary forms send nothing and the in-range form
sends its request. -/
theorem generate_bounds_validation_witness :
    submitGenerate genFormZero = none ∧
    submitGenerate genForm21 = none ∧
    submitGenerate genFormOk = some (generateRequestOf genFormOk) := by
  refine ⟨?_, ?_, ?_⟩
  · exact generate_bounds_validation.1 genFormZero (Or.inl rfl)
  · exact generate_bounds_validation.1 genForm21 (Or.inr rfl)
  · exact generate_bounds_validation.2.2 genFormOk (by decide) (by decide)

/-- C5 counterexample: logout writes the serialized all-null record back
under the fixed key instead of removing it, so from a logged-in state the
storage still contains a record afterwards. -/
theorem logout_keeps_storage_record_cex :
    (logout loggedInState).storage = some (StoredValue.good clearedAuth) ∧
    (logout loggedInState).storage ≠ none :=
  ⟨rfl, by decide⟩

/-- C5 amended: logout sets the Credential to all-null and clears the
Transport authorization header, and it rewrites the persisted record under
the fixed key with the serialized all-null state (the key still holds a
record afterwards). -/
theorem logout_clears_auth_and_header (s : ClientState) :
    (logout s).auth = clearedAuth ∧ (logout s).header = none ∧
    (logout s).storage = some (StoredValue.good clearedAuth) :=
  ⟨rfl, rfl, rfl⟩

/-- C6: logout is idempotent: from every starting session state, two
consecutive calls end in the same state as one call (auth, header and
storage alike), and both calls are total so no error is raised. -/
theorem logout_idempotent (s : ClientState) :
    logout (logout s) = logout s ∧ (logout s).auth = clearedAuth :=
  ⟨rfl, rfl⟩

/-- C7: handleRefine sends the current Local Edit Buffer content as the
prompt field together with the refine-instruction input, and on success the
refine input is cleared and the returned section replaces the buffer. -/
theorem refine_sends_buffer_content (pid : String) (st : DetailPageState)
    (sel : Section) (h : st.selectedSection = some sel) (data : Section) :
    (handleRefine (some pid) st (Except.ok data)).2 =
      some (refineRequestOf pid st sel) ∧
    (refineRequestOf pid st sel).prompt = sel.content ∧
    (refineRequestOf pid st sel).refine_instruction = st.refinePrompt ∧
    (handleRefine (some pid) st (Except.ok data)).1.selectedSection =
      some data ∧
    (handleRefine (some pid) st (Except.ok data)).1.refinePrompt = "" := by
  simp [handleRefine, h, refineRequestOf]

/-- Authoritative list copy of Beta as the server holds it. -/
def serverSecB : Section := { secB with content := "server copy" }

/-- Local Edit Buffer copy of Beta with an unsaved edit. -/
def editedSecB : Section := { secB with content := "locally edited" }

/-- Section returned by the refine endpoint. -/
def refinedSecB : Section :=
  { secB with content := "refined", revision_count := 3 }

/-- Detail page state whose buffer holds an unsaved edit that differs from
the authoritative list copy. -/
def refineSt : DetailPageState :=
  { sections := [secA, serverSecB], selectedSection := some editedSecB,
    refinePrompt := "make it formal", generatePrompt := "",
    llmBusy := true, exporting := false, savingSection := false,
    error := none }

/-- C7 witness: with the buffer edited away from the list copy, the prompt
sent is the edited buffer content, and success clears the refine input and
installs the returned section. -/
theorem refine_sends_buffer_content_witness :
    (handleRefine (some "p1") refineSt (Except.ok refinedSecB)).2 =
      some (refineRequestOf "p1" refineSt editedSecB) ∧
    (refineRequestOf "p1" refineSt editedSecB).prompt = editedSecB.content ∧
    (refineRequestOf "p1" refineSt editedSecB).refine_instruction =
      refineSt.refinePrompt ∧
    (handleRefine (some "p1") refineSt (Except.ok refinedSecB)).1.selectedSection =
      some refinedSecB ∧
    (handleRefine (some "p1") refineSt (Except.ok refinedSecB)).1.refinePrompt =
      "" :=
  refine_sends_buffer_content "p1" refineSt editedSecB rfl refinedSecB

/-- C8: an export attempt answered with a non-success status triggers no
file-save action, fills the error slot with a nonempty message, and leaves
the exporting flag false. -/
theorem export_failure_no_save (pid : String) (title : Option String)
    (fmt : String) (st : DetailPageState) (r : ExportOk) (h : r.ok = false) :
    (handleExport (some pid) title fmt st (Except.ok r)).2 = none ∧
    (∃ m, (handleExport (some pid) title fmt st (Except.ok r)).1.error =
      some m ∧ m ≠ "") ∧
    (handleExport (some pid) title fmt st (Except.ok r)).1.exporting =
      false := by
  refine ⟨?_, ⟨"Export failed", ?_, by decide⟩, ?_⟩ <;>
    simp [handleExport, h]

/-- Detail page state in the middle of an export. -/
def exportSt : DetailPageState :=
  { sections := [secA], selectedSection := some secA, refinePrompt := "",
    generatePrompt := "", llmBusy := false, exporting := true,
    savingSection := false, error := none }

/-- C8 witness: a concrete failed export saves nothing, records the fixed
nonempty message, and ends with exporting false. -/
theorem export_failure_no_save_witness :
    (handleExport (some "p1") (some "Quarterly Report") "docx" exportSt
      (Except.ok { ok := false, body := [] })).2 = none ∧
    (∃ m, (handleExport (some "p1") (some "Quarterly Report") "docx" exportSt
      (Except.ok { ok := false, body := [] })).1.error = some m ∧ m ≠ "") ∧
    (handleExport (some "p1") (some "Quarterly Report") "docx" exportSt
      (Except.ok { ok := false, body := [] })).1.exporting = false :=
  export_failure_no_save "p1" (some "Quarterly Report") "docx" exportSt
    { ok := false, body := [] } rfl

/-- C9: the update request for a section carries only the title and content
in its body, so two sections agreeing on id, title and content produce the
same request whatever their idx, revisionCount, initialGenerated and other
fields hold. -/
theorem update_request_only_title_content (pid : String) (s1 s2 : Section)
    (hid : s1.id = s2.id) (ht : s1.title = s2.title)
    (hc : s1.content = s2.content) :
    handleSectionUpdate (some pid) s1 = handleSectionUpdate (some pid) s2 ∧
    (updateRequestOf pid s1).body =
      { title := s1.title, content := s1.content } := by
  constructor
  · simp [handleSectionUpdate, updateRequestOf, hid, ht, hc]
  · rfl

/-- Section for the update-request frame instance. -/
def updSec1 : Section :=
  { id := "s9", project_id := "p1", title := "T", content := "body",
    idx := 0, initial_generated := false, revision_count := 0,
    comment_count := 0, created_at := "t0", updated_at := none }

/-- Same id, title and content as updSec1 with every other field changed. -/
def updSec2 : Section :=
  { id := "s9", project_id := "p1", title := "T", content := "body",
    idx := 7, initial_generated := true, revision_count := 5,
    comment_count := 3, created_at := "t0", updated_at := some "t1" }

/-- C9 witness: two concrete sections differing only in the untransmitted
fields produce identical update requests. -/
theorem update_request_only_title_content_witness :
    handleSectionUpdate (some "p1") updSec1 =
      handleSectionUpdate (some "p1") updSec2 ∧
    (updateRequestOf "p1" updSec1).body =
      { title := updSec1.title, content := updSec1.content } :=
  update_request_only_title_content "p1" updSec1 updSec2 rfl rfl rfl

/-- C1 counterexample: a 401 answering the export request, which travels
over window.fetch instead of the shared axios instance, leaves the
Credential non-null and the persisted storage record in place, and no
rejected call propagates: the failure is captured locally as the fixed
export error with no save action. -/
theorem export_401_leaves_session_cex :
    (receiveExportResponse 401 [] (some "p1") (some "Quarterly Report")
      "docx" exportSt loggedInState).1.auth ≠ clearedAuth ∧
    (receiveExportResponse 401 [] (some "p1") (some "Quarterly Report")
      "docx" exportSt loggedInState).1.storage ≠ none ∧
    (receiveExportResponse 401 [] (some "p1") (some "Quarterly Report")
      "docx" exportSt loggedInState).2.1.error = some "Export failed" ∧
    (receiveExportResponse 401 [] (some "p1") (some "Quarterly Report")
      "docx" exportSt loggedInState).2.2 = none :=
  ⟨by decide, by decide, rfl, rfl⟩

/-- C1 amended: for every response with HTTP status 401 that settles
through the shared axios Transport, whichever JSON operation issued the
request, the interceptor makes the Credential all-null, removes the
persisted storage record under the fixed key, and the original error is
still propagated as a rejected call to the caller; the export download runs
on window.fetch outside the shared Transport, so a response arriving there
never changes the session state. -/
theorem shared_transport_401_clears_session_and_propagates :
    (∀ (s : ClientState) (d : Option String),
      (receiveResponse 401 d s).1.auth = clearedAuth ∧
      (receiveResponse 401 d s).1.storage = none ∧
      (receiveResponse 401 d s).2 =
        Except.error { responseStatus := some 401, detail := d }) ∧
    (∀ (status : Nat) (body : List Nat) (pid title : Option String)
        (fmt : String) (st : DetailPageState) (s : ClientState),
      (receiveExportResponse status body pid title fmt st s).1 = s) :=
  ⟨fun _ _ => ⟨rfl, rfl, rfl⟩, fun _ _ _ _ _ _ _ => rfl⟩

end Draftly
